import Mathlib

/-
Verification of the session-backed flash-message store
(`src/actix-web-flash-messages/src/storage/sessions.rs`).

The session map owned by the external session subsystem is embedded as an
association list from string keys to stored values; the subsystem's
`get`/`insert`/`remove` operations and the crate types that are not part of
the shown source (`FlashMessage`, `LoadError`, `StoreError`, the response
head) are modelled from the specification.  `SessionMessageStore.load` and
`SessionMessageStore.store` are direct translations of the source, threading
the session map (and, for `store`, the response head) explicitly.
-/

namespace ActixFlash

/-- Modelled from the spec: `FlashMessage` (`crate::FlashMessage`) is declared
outside the shown source; the spec describes it as an opaque serializable
value carrying a level/kind and a text, where only sequence membership and
order matter. -/
structure FlashMessage where
  level : String
  content : String
deriving DecidableEq, Repr

/-- A value held in one slot of the session map: either a value that
deserializes as a sequence of `FlashMessage` (the serialized form written by
the session subsystem's insert), or a value whose deserialization as such a
sequence fails, carrying the textual rendering of the deserialization
error. -/
inductive SessionValue where
  | messages (msgs : List FlashMessage)
  | corrupt (errText : String)
deriving DecidableEq, Repr

/-- The session map owned by the external session subsystem, embedded as an
association list; the first binding for a key is its value. -/
abbrev SessionState := List (String × SessionValue)

/-- Raw lookup of the slot at key `k` in the session map. -/
def sessionGetRaw (s : SessionState) (k : String) : Option SessionValue :=
  (s.find? (fun p => p.1 == k)).map (fun p => p.2)

/-- Modelled from the spec: the external session subsystem's infallible
`remove(key)`; it deletes the binding at `key` and keeps all others. -/
def sessionRemove (s : SessionState) (k : String) : SessionState :=
  s.filter (fun p => p.1 != k)

/-- Modelled from the spec: the behaviour oracle of the external session
subsystem.  `insertFails k msgs = some errText` means that serializing and
writing `msgs` at key `k` fails, with `errText` the textual rendering of the
backend error; `none` means the write succeeds. -/
structure SessionBackend where
  insertFails : String → List FlashMessage → Option String

/-- Modelled from the spec: the external session subsystem's
`get(key) -> Option<deserialized-value>`: an absent key yields `none`, a
stored message sequence deserializes back to itself, and a corrupt value
fails with the textual rendering of the deserialization error.  The map is
returned unchanged (the operation is a read). -/
def Session.get (s : SessionState) (k : String) :
    Except String (Option (List FlashMessage)) × SessionState :=
  match sessionGetRaw s k with
  | none => (Except.ok none, s)
  | some (SessionValue.messages m) => (Except.ok (some m), s)
  | some (SessionValue.corrupt e) => (Except.error e, s)

/-- Modelled from the spec: the external session subsystem's
`insert(key, value)`: on success the slot at `key` is replaced by the
serialized sequence and all other bindings are kept; on failure (decided by
the backend oracle) the map is unchanged. -/
def Session.insert (b : SessionBackend) (s : SessionState) (k : String)
    (msgs : List FlashMessage) : Except String Unit × SessionState :=
  match b.insertFails k msgs with
  | some e => (Except.error e, s)
  | none => (Except.ok (), (k, SessionValue.messages msgs) :: sessionRemove s k)

/-- Modelled from the spec: the outgoing response head handed to `store`,
opaque to this backend, which never uses it. -/
structure ResponseHead where
  raw : String
deriving DecidableEq, Repr

/-- Modelled from the spec: `LoadError` (declared in `crate::storage`,
outside the shown source); its `GenericError` variant wraps a failure as an
added context string together with the textual rendering of the original
error, the structured cause being discarded. -/
inductive LoadError where
  | GenericError (context : String) (cause : String)
deriving DecidableEq, Repr

/-- Modelled from the spec: `StoreError` (declared in `crate::storage`,
outside the shown source); its `GenericError` variant wraps a failure as an
added context string together with the textual rendering of the original
error. -/
inductive StoreError where
  | GenericError (context : String) (cause : String)
deriving DecidableEq, Repr

/-- The session-based flash message store: holds the key under which the
messages are stored in the session map. -/
structure SessionMessageStore where
  key : String
deriving DecidableEq, Repr

/-- Translation of `SessionMessageStore::new`: stores the given key
verbatim. -/
def SessionMessageStore.new (key : String) : SessionMessageStore :=
  ⟨key⟩

/-- Translation of `impl Default for SessionMessageStore`: key is the
literal string "_flash". -/
def SessionMessageStore.default : SessionMessageStore :=
  ⟨"_flash"⟩

/-- The context string added on `load`'s error path (sessions.rs line 62). -/
def loadErrorContext : String :=
  "Failed to retrieve flash messages from session storage."

/-- The context string added on `store`'s error path (sessions.rs line 85). -/
def storeErrorContext : String :=
  "Failed to retrieve flash messages from session storage."

/-- Translation of `SessionMessageStore::load`: read the slot at `self.key`
through the session subsystem; wrap a failure in `LoadError::GenericError`
with the added context string; an absent slot defaults to the empty
sequence.  The resulting session map is returned alongside the outcome. -/
def SessionMessageStore.load (self : SessionMessageStore) (s : SessionState) :
    Except LoadError (List FlashMessage) × SessionState :=
  match Session.get s self.key with
  | (Except.error e, s1) =>
      (Except.error (LoadError.GenericError loadErrorContext e), s1)
  | (Except.ok v, s1) => (Except.ok (v.getD []), s1)

/-- Translation of `SessionMessageStore::store`: if `messages` is empty,
remove the slot at `self.key` (infallible); otherwise insert the sequence at
`self.key`, wrapping a failure in `StoreError::GenericError` with the added
context string.  The response head is never used and is returned
unchanged. -/
def SessionMessageStore.store (self : SessionMessageStore)
    (b : SessionBackend) (messages : List FlashMessage) (s : SessionState)
    (response : ResponseHead) :
    Except StoreError Unit × SessionState × ResponseHead :=
  if messages.isEmpty then
    (Except.ok (), sessionRemove s self.key, response)
  else
    match Session.insert b s self.key messages with
    | (Except.ok _, s1) => (Except.ok (), s1, response)
    | (Except.error e, s1) =>
        (Except.error (StoreError.GenericError storeErrorContext e), s1, response)

theorem sessionGetRaw_nil (k : String) : sessionGetRaw [] k = none := rfl

theorem sessionGetRaw_cons_self (k : String) (v : SessionValue)
    (t : SessionState) : sessionGetRaw ((k, v) :: t) k = some v := by
  simp [sessionGetRaw, List.find?_cons]

theorem sessionGetRaw_cons_ne (k k' : String) (v : SessionValue)
    (t : SessionState) (h : k' ≠ k) :
    sessionGetRaw ((k, v) :: t) k' = sessionGetRaw t k' := by
  simp only [sessionGetRaw, List.find?_cons]
  have : ((k, v).1 == k') = false := by
    simp only [beq_eq_false_iff_ne, ne_eq]
    exact fun hc => h hc.symm
  simp [this]

theorem sessionRemove_cons_of_eq (k : String) (hd : String × SessionValue)
    (tl : SessionState) (h : hd.1 = k) :
    sessionRemove (hd :: tl) k = sessionRemove tl k := by
  have hne : (hd.1 != k) = false := by simp [bne, h]
  simp [sessionRemove, List.filter_cons, hne]

theorem sessionRemove_cons_of_ne (k : String) (hd : String × SessionValue)
    (tl : SessionState) (h : hd.1 ≠ k) :
    sessionRemove (hd :: tl) k = hd :: sessionRemove tl k := by
  have hne : (hd.1 != k) = true := by simp [bne, h]
  simp [sessionRemove, List.filter_cons, hne]

theorem sessionGetRaw_cons_of_ne (k : String) (hd : String × SessionValue)
    (tl : SessionState) (h : hd.1 ≠ k) :
    sessionGetRaw (hd :: tl) k = sessionGetRaw tl k := by
  have hfind : (hd.1 == k) = false := by simp [h]
  simp [sessionGetRaw, List.find?_cons, hfind]

theorem sessionGetRaw_remove_self (s : SessionState) (k : String) :
    sessionGetRaw (sessionRemove s k) k = none := by
  induction s with
  | nil => rfl
  | cons hd tl ih =>
    by_cases h : hd.1 = k
    · rw [sessionRemove_cons_of_eq k hd tl h]
      exact ih
    · rw [sessionRemove_cons_of_ne k hd tl h,
        sessionGetRaw_cons_of_ne k hd (sessionRemove tl k) h]
      exact ih

theorem sessionGetRaw_remove_ne (s : SessionState) (k k' : String)
    (h : k' ≠ k) :
    sessionGetRaw (sessionRemove s k) k' = sessionGetRaw s k' := by
  induction s with
  | nil => rfl
  | cons hd tl ih =>
    by_cases hh : hd.1 = k
    · have hne : hd.1 ≠ k' := fun hc => h (hc.symm.trans hh)
      rw [sessionRemove_cons_of_eq k hd tl hh, ih,
        sessionGetRaw_cons_of_ne k' hd tl hne]
    · rw [sessionRemove_cons_of_ne k hd tl hh]
      by_cases hf : hd.1 = k'
      · simp [sessionGetRaw, List.find?_cons, hf]
      · rw [sessionGetRaw_cons_of_ne k' hd (sessionRemove tl k) hf,
          sessionGetRaw_cons_of_ne k' hd tl hf]
        exact ih

theorem sessionRemove_cons_self (k : String) (v : SessionValue)
    (t : SessionState) : sessionRemove ((k, v) :: t) k = sessionRemove t k := by
  have hne : (k != k) = false := by simp
  simp [sessionRemove, List.filter_cons, hne]

theorem sessionRemove_idem (s : SessionState) (k : String) :
    sessionRemove (sessionRemove s k) k = sessionRemove s k := by
  induction s with
  | nil => rfl
  | cons hd tl ih =>
    by_cases h : hd.1 = k
    · rw [sessionRemove_cons_of_eq k hd tl h]
      exact ih
    · rw [sessionRemove_cons_of_ne k hd tl h,
        sessionRemove_cons_of_ne k hd (sessionRemove tl k) h, ih]

theorem load_fst_congr (fs : SessionMessageStore) (s s' : SessionState)
    (h : sessionGetRaw s' fs.key = sessionGetRaw s fs.key) :
    (fs.load s').1 = (fs.load s).1 := by
  simp only [SessionMessageStore.load, Session.get, h]
  cases hx : sessionGetRaw s fs.key with
  | none => rfl
  | some v => cases v <;> rfl

theorem store_ok_state (fs : SessionMessageStore) (b : SessionBackend)
    (M : List FlashMessage) (s s' : SessionState) (r r' : ResponseHead)
    (h : fs.store b M s r = (Except.ok (), s', r')) :
    r' = r ∧
      ((M = [] ∧ s' = sessionRemove s fs.key) ∨
        (M ≠ [] ∧ b.insertFails fs.key M = none ∧
          s' = (fs.key, SessionValue.messages M) :: sessionRemove s fs.key)) := by
  cases M with
  | nil =>
    simp only [SessionMessageStore.store, List.isEmpty_nil, if_true,
      Prod.mk.injEq, true_and] at h
    obtain ⟨hs, hr⟩ := h
    exact ⟨hr.symm, Or.inl ⟨rfl, hs.symm⟩⟩
  | cons m ms =>
    cases hb : b.insertFails fs.key (m :: ms) with
    | some e =>
      simp [SessionMessageStore.store, Session.insert, hb] at h
    | none =>
      simp [SessionMessageStore.store, Session.insert, hb] at h
      obtain ⟨hs, hr⟩ := h
      exact ⟨hr.symm, Or.inr ⟨List.cons_ne_nil m ms, rfl, hs.symm⟩⟩

/-- Claim C1: for every backend, store instance, message sequence `M` and
session map, a successful `store(M, req)` followed by `load(req)` on the
resulting session map returns `M` unchanged in order; when `M` is empty,
`load` returns the empty sequence and the slot at the store's key is absent
from the map. -/
theorem store_then_load_roundtrip (fs : SessionMessageStore)
    (b : SessionBackend) (M : List FlashMessage) (s s' : SessionState)
    (r r' : ResponseHead)
    (h : fs.store b M s r = (Except.ok (), s', r')) :
    fs.load s' = (Except.ok M, s') ∧
      (M = [] → sessionGetRaw s' fs.key = none) := by
  rcases store_ok_state fs b M s s' r r' h with ⟨hr, hcase⟩
  rcases hcase with ⟨hM, hs⟩ | ⟨hM, hb, hs⟩
  · subst hM
    subst hs
    refine ⟨?_, fun _ => sessionGetRaw_remove_self s fs.key⟩
    simp [SessionMessageStore.load, Session.get, sessionGetRaw_remove_self]
  · subst hs
    refine ⟨?_, fun hc => absurd hc hM⟩
    simp [SessionMessageStore.load, Session.get, sessionGetRaw_cons_self]

theorem store_then_load_roundtrip_witness :
    SessionMessageStore.default.load
        [("_flash", SessionValue.messages [⟨"info", "Saved"⟩])]
      = (Except.ok [⟨"info", "Saved"⟩],
          [("_flash", SessionValue.messages [⟨"info", "Saved"⟩])]) ∧
      ([(⟨"info", "Saved"⟩ : FlashMessage)] = [] →
        sessionGetRaw [("_flash", SessionValue.messages [⟨"info", "Saved"⟩])]
          SessionMessageStore.default.key = none) :=
  store_then_load_roundtrip SessionMessageStore.default ⟨fun _ _ => none⟩
    [⟨"info", "Saved"⟩] [] _ ⟨""⟩ ⟨""⟩ rfl

/-- Claim C2: after a successful `store` with an empty input sequence the
slot at the store's key is absent from the session map; after a successful
`store` with a non-empty input sequence `M` the slot holds exactly the
serialized `M`, replacing any prior value. -/
theorem store_postcondition_slot (fs : SessionMessageStore)
    (b : SessionBackend) (M : List FlashMessage) (s s' : SessionState)
    (r r' : ResponseHead)
    (h : fs.store b M s r = (Except.ok (), s', r')) :
    (M = [] → sessionGetRaw s' fs.key = none) ∧
      (M ≠ [] → sessionGetRaw s' fs.key = some (SessionValue.messages M)) := by
  rcases store_ok_state fs b M s s' r r' h with ⟨hr, hcase⟩
  rcases hcase with ⟨hM, hs⟩ | ⟨hM, hb, hs⟩
  · subst hM
    subst hs
    exact ⟨fun _ => sessionGetRaw_remove_self s fs.key,
      fun hc => absurd rfl hc⟩
  · subst hs
    exact ⟨fun hc => absurd hc hM,
      fun _ => sessionGetRaw_cons_self fs.key (SessionValue.messages M)
        (sessionRemove s fs.key)⟩

theorem store_postcondition_slot_witness :
    (([(⟨"warn", "New"⟩ : FlashMessage)] = []) →
        sessionGetRaw [("_flash", SessionValue.messages [⟨"warn", "New"⟩])]
          SessionMessageStore.default.key = none) ∧
      (([(⟨"warn", "New"⟩ : FlashMessage)] ≠ []) →
        sessionGetRaw [("_flash", SessionValue.messages [⟨"warn", "New"⟩])]
          SessionMessageStore.default.key
          = some (SessionValue.messages [⟨"warn", "New"⟩])) :=
  store_postcondition_slot SessionMessageStore.default ⟨fun _ _ => none⟩
    [⟨"warn", "New"⟩] [("_flash", SessionValue.messages [⟨"old", "Old"⟩])]
    _ ⟨""⟩ ⟨""⟩ rfl

/-- Claim C3 counterexample: the context text that `load` attaches on a
deserialization failure is the literal
"Failed to retrieve flash messages from session storage." (capitalised, with
a trailing full stop), not the claimed lowercase, period-free
"failed to retrieve flash messages from session storage". -/
theorem load_error_context_text_counterexample :
    SessionMessageStore.default.load [("_flash", SessionValue.corrupt "boom")]
      = (Except.error (LoadError.GenericError
            "Failed to retrieve flash messages from session storage." "boom"),
          [("_flash", SessionValue.corrupt "boom")]) ∧
      loadErrorContext ≠ "failed to retrieve flash messages from session storage" := by
  exact ⟨rfl, by decide⟩

/-- Claim C3 (amended): if the slot at the store's key holds a value that
cannot be deserialized as a sequence of messages, `load` returns an error of
the shape `LoadError::GenericError` wrapping the textual rendering of the
failure with the added context text
"Failed to retrieve flash messages from session storage."; it neither panics
nor returns a silently empty result. -/
theorem load_corrupt_slot_generic_error (fs : SessionMessageStore)
    (s : SessionState) (e : String)
    (h : sessionGetRaw s fs.key = some (SessionValue.corrupt e)) :
    fs.load s = (Except.error (LoadError.GenericError
      "Failed to retrieve flash messages from session storage." e), s) := by
  simp [SessionMessageStore.load, Session.get, h, loadErrorContext]

theorem load_corrupt_slot_generic_error_witness :
    sessionGetRaw [("_flash", SessionValue.corrupt "not a message list")]
        SessionMessageStore.default.key
      = some (SessionValue.corrupt "not a message list") ∧
      SessionMessageStore.default.load
          [("_flash", SessionValue.corrupt "not a message list")]
        = (Except.error (LoadError.GenericError
            "Failed to retrieve flash messages from session storage."
            "not a message list"),
          [("_flash", SessionValue.corrupt "not a message list")]) :=
  ⟨rfl, load_corrupt_slot_generic_error SessionMessageStore.default
    [("_flash", SessionValue.corrupt "not a message list")]
    "not a message list" rfl⟩

/-- Claim C4: for every backend, store instance and session map, `store`
with an empty message sequence always succeeds, returning the map with the
slot removed and never producing a `StoreError`. -/
theorem store_empty_never_fails (fs : SessionMessageStore)
    (b : SessionBackend) (s : SessionState) (r : ResponseHead) :
    fs.store b [] s r = (Except.ok (), sessionRemove s fs.key, r) := rfl

/-- Claim C5: for every session map in which the slot at the store's key is
absent, `load` succeeds and returns the empty sequence, not an error. -/
theorem load_absent_slot_empty (fs : SessionMessageStore) (s : SessionState)
    (h : sessionGetRaw s fs.key = none) :
    fs.load s = (Except.ok [], s) := by
  simp [SessionMessageStore.load, Session.get, h]

theorem load_absent_slot_empty_witness :
    sessionGetRaw [("other", SessionValue.corrupt "junk")]
        SessionMessageStore.default.key = none ∧
      SessionMessageStore.default.load [("other", SessionValue.corrupt "junk")]
        = (Except.ok [], [("other", SessionValue.corrupt "junk")]) :=
  ⟨rfl, load_absent_slot_empty SessionMessageStore.default
    [("other", SessionValue.corrupt "junk")] rfl⟩

/-- Claim C6: `store` is idempotent: if `store(M)` succeeds, producing
session map `s'` and response head `r'`, then running `store(M)` again on
`s'` succeeds and leaves the session map (and response head) exactly at
`s'` and `r'`. -/
theorem store_idempotent (fs : SessionMessageStore) (b : SessionBackend)
    (M : List FlashMessage) (s s' : SessionState) (r r' : ResponseHead)
    (h : fs.store b M s r = (Except.ok (), s', r')) :
    fs.store b M s' r' = (Except.ok (), s', r') := by
  rcases store_ok_state fs b M s s' r r' h with ⟨hr, hcase⟩
  subst hr
  rcases hcase with ⟨hM, hs⟩ | ⟨hM, hb, hs⟩
  · subst hM
    subst hs
    simp [SessionMessageStore.store, sessionRemove_idem]
  · subst hs
    cases M with
    | nil => exact absurd rfl hM
    | cons m ms =>
      simp [SessionMessageStore.store, Session.insert, hb,
        sessionRemove_cons_self, sessionRemove_idem]

theorem store_idempotent_witness :
    SessionMessageStore.default.store ⟨fun _ _ => none⟩ [⟨"info", "Saved"⟩]
        [("_flash", SessionValue.messages [⟨"info", "Saved"⟩])] ⟨""⟩
      = (Except.ok (),
          [("_flash", SessionValue.messages [⟨"info", "Saved"⟩])], ⟨""⟩) :=
  store_idempotent SessionMessageStore.default ⟨fun _ _ => none⟩
    [⟨"info", "Saved"⟩] [] _ ⟨""⟩ ⟨""⟩ rfl

/-- Claim C7: `load` has no side effects: for every store instance and
session map, the session map after `load` is the map `load` was given;
reading the slot does not clear it. -/
theorem load_preserves_session (fs : SessionMessageStore)
    (s : SessionState) : (fs.load s).2 = s := by
  simp only [SessionMessageStore.load, Session.get]
  cases sessionGetRaw s fs.key with
  | none => rfl
  | some v => cases v <;> rfl

/-- Claim C8: a successful `store` modifies at most the single session entry
at the store's key: every other key of the session map is unchanged, the
outgoing response head is unchanged, and any store instance with a different
key loads the same result before and after. -/
theorem store_frame (fs : SessionMessageStore) (b : SessionBackend)
    (M : List FlashMessage) (s s' : SessionState) (r r' : ResponseHead)
    (h : fs.store b M s r = (Except.ok (), s', r')) :
    (∀ k, k ≠ fs.key → sessionGetRaw s' k = sessionGetRaw s k) ∧ r' = r ∧
      ∀ fs2 : SessionMessageStore, fs2.key ≠ fs.key →
        (fs2.load s').1 = (fs2.load s).1 := by
  rcases store_ok_state fs b M s s' r r' h with ⟨hr, hcase⟩
  have hframe : ∀ k, k ≠ fs.key → sessionGetRaw s' k = sessionGetRaw s k := by
    intro k hk
    rcases hcase with ⟨hM, hs⟩ | ⟨hM, hb, hs⟩
    · subst hs
      exact sessionGetRaw_remove_ne s fs.key k hk
    · subst hs
      rw [sessionGetRaw_cons_of_ne k (fs.key, SessionValue.messages M)
        (sessionRemove s fs.key) (fun hc => hk hc.symm)]
      exact sessionGetRaw_remove_ne s fs.key k hk
  exact ⟨hframe, hr, fun fs2 h2 => load_fst_congr fs2 s s' (hframe fs2.key h2)⟩

theorem store_frame_witness :
    (∀ k, k ≠ (SessionMessageStore.new "custom").key →
        sessionGetRaw
          (("custom", SessionValue.messages [⟨"warn", "Careful"⟩]) ::
            sessionRemove [("_flash", SessionValue.messages [⟨"info", "Saved"⟩])]
              "custom") k
          = sessionGetRaw
              [("_flash", SessionValue.messages [⟨"info", "Saved"⟩])] k) ∧
      (⟨""⟩ : ResponseHead) = ⟨""⟩ ∧
      ∀ fs2 : SessionMessageStore, fs2.key ≠ (SessionMessageStore.new "custom").key →
        (fs2.load (("custom", SessionValue.messages [⟨"warn", "Careful"⟩]) ::
          sessionRemove [("_flash", SessionValue.messages [⟨"info", "Saved"⟩])]
            "custom")).1
          = (fs2.load [("_flash", SessionValue.messages [⟨"info", "Saved"⟩])]).1 :=
  store_frame (SessionMessageStore.new "custom") ⟨fun _ _ => none⟩
    [⟨"warn", "Careful"⟩] [("_flash", SessionValue.messages [⟨"info", "Saved"⟩])]
    _ ⟨""⟩ ⟨""⟩ rfl

/-- Claim C9: `new(key)` stores the given key verbatim with no validation,
and the default-constructed store has key equal to the literal string
"_flash", i.e. `default` coincides with `new("_flash")`. -/
theorem new_verbatim_default_flash (k : String) :
    (SessionMessageStore.new k).key = k ∧
      SessionMessageStore.default = SessionMessageStore.new "_flash" :=
  ⟨rfl, rfl⟩

/-- Claim C10: when a non-empty `store` fails because the session insert
fails, the resulting `StoreError::GenericError` carries the context text
"Failed to retrieve flash messages from session storage." — the identical
string used by `load`'s error path, saying "retrieve" even though the
failure occurred while storing. -/
theorem store_failure_reuses_load_context (fs : SessionMessageStore)
    (b : SessionBackend) (M : List FlashMessage) (s : SessionState)
    (r : ResponseHead) (e : String) (hM : M ≠ [])
    (hb : b.insertFails fs.key M = some e) :
    fs.store b M s r
        = (Except.error (StoreError.GenericError storeErrorContext e), s, r) ∧
      storeErrorContext = loadErrorContext ∧
      storeErrorContext
        = "Failed to retrieve flash messages from session storage." := by
  refine ⟨?_, rfl, rfl⟩
  cases M with
  | nil => exact absurd rfl hM
  | cons m ms =>
    simp [SessionMessageStore.store, Session.insert, hb]

theorem store_failure_reuses_load_context_witness :
    ([(⟨"info", "Saved"⟩ : FlashMessage)] ≠ []) ∧
      (SessionBackend.mk (fun _ _ => some "serialization failed")).insertFails
          SessionMessageStore.default.key [⟨"info", "Saved"⟩]
        = some "serialization failed" ∧
      (SessionMessageStore.default.store
            ⟨fun _ _ => some "serialization failed"⟩ [⟨"info", "Saved"⟩] [] ⟨""⟩
          = (Except.error (StoreError.GenericError storeErrorContext
              "serialization failed"), [], ⟨""⟩) ∧
        storeErrorContext = loadErrorContext ∧
        storeErrorContext
          = "Failed to retrieve flash messages from session storage.") :=
  ⟨List.cons_ne_nil _ _, rfl,
    store_failure_reuses_load_context SessionMessageStore.default
      ⟨fun _ _ => some "serialization failed"⟩ [⟨"info", "Saved"⟩] [] ⟨""⟩
      "serialization failed" (List.cons_ne_nil _ _) rfl⟩

end ActixFlash
